import Mathlib

/-!
# Verification of the Halloween AR party web application

A shallow embedding, in Lean 4, of the validation, caching, session-tracking,
error-handling and AR-lifecycle logic of the `halloween_party_ar` repository,
together with theorems settling the specification's testable properties
against that embedding.

The embedding follows the JavaScript source closely: the machine-level
behaviour that matters (JS `parseInt`, `NaN` comparisons, truthiness, 32-bit
bitwise arithmetic) is made explicit rather than idealized.
-/

set_option autoImplicit false

/-! ## A fragment of JavaScript number semantics

The `/api/qr-code` handler manipulates numbers that come out of `parseInt`,
so a number is either `NaN` or an integer.  Comparisons against `NaN` are
`false`, and both `NaN` and `0` are falsy.
-/

/-- A JS number as the qr-code API handler sees it: either `NaN` (what
`parseInt` returns on non-numeric input) or an integer. -/
inductive JSNum where
  | nan : JSNum
  | int : Int → JSNum
deriving DecidableEq, Repr

/-- JS truthiness for numbers: `NaN` and `0` are falsy, everything else is
truthy. -/
def JSNum.truthy : JSNum → Bool
  | .nan => false
  | .int n => n != 0

/-- JS `<` against an integer: any comparison involving `NaN` is `false`. -/
def JSNum.ltInt : JSNum → Int → Bool
  | .nan, _ => false
  | .int n, b => n < b

/-- JS `>` against an integer: any comparison involving `NaN` is `false`. -/
def JSNum.gtInt : JSNum → Int → Bool
  | .nan, _ => false
  | .int n, b => n > b

/-- Numeric value of a list of decimal digit characters. -/
def digitsVal (ds : List Char) : Nat :=
  ds.foldl (fun a c => a * 10 + (c.toNat - 48)) 0

/-- JS `parseInt(s, 10)`: skip leading whitespace, read an optional sign and
then the longest prefix of decimal digits; the result is `NaN` when that
prefix is empty. -/
def parseInt10 (s : String) : JSNum :=
  let cs := s.toList.dropWhile (fun c => c == ' ' || c == '\t' || c == '\n' || c == '\r')
  match cs with
  | '-' :: rest =>
      let ds := rest.takeWhile Char.isDigit
      if ds.isEmpty then .nan else .int (-(digitsVal ds : Int))
  | '+' :: rest =>
      let ds := rest.takeWhile Char.isDigit
      if ds.isEmpty then .nan else .int (digitsVal ds)
  | _ =>
      let ds := cs.takeWhile Char.isDigit
      if ds.isEmpty then .nan else .int (digitsVal ds)

/-- JS `a || b` on strings: the empty string is falsy. -/
def jsOrStr (a b : String) : String := if a ≠ "" then a else b

/-- JS `s.startsWith(pre)`. -/
def jsStartsWith (s pre : String) : Bool :=
  s.toList.take pre.toList.length == pre.toList

/-- JS `s.toUpperCase()` (ASCII, which is all the handler compares). -/
def jsToUpper (s : String) : String := String.mk (s.toList.map Char.toUpper)

/-! ## The `/api/qr-code` handler (src/pages/api/qr-code.js) -/

/-- The generation configuration fields the handler's validation logic reads
(`QR_CONFIG` merged with the per-request `customConfig`). -/
structure QrConfig where
  errorCorrectionLevel : String
  type : String
  margin : Nat
  width : JSNum
  scale : Nat
deriving DecidableEq, Repr

/-- The `QR_CONFIG` defaults of src/pages/api/qr-code.js. -/
def QR_CONFIG : QrConfig :=
  { errorCorrectionLevel := "H", type := "image/png", margin := 2
    width := .int 512, scale := 8 }

/-- A partial configuration: the `customConfig` object built from the query
string (GET) or taken from the request body (POST).  A `none` field means the
key is absent, so the object-spread merge keeps the default. -/
structure QrPartialConfig where
  width : Option JSNum := none
  type : Option String := none
  errorCorrectionLevel : Option String := none
deriving DecidableEq, Repr

/-- The object-spread merge of the defaults with the request's custom
configuration. -/
def mergeConfig (base : QrConfig) (c : QrPartialConfig) : QrConfig :=
  { errorCorrectionLevel := c.errorCorrectionLevel.getD base.errorCorrectionLevel
    type := c.type.getD base.type
    margin := base.margin
    width := c.width.getD base.width
    scale := base.scale }

/-- Query parameters of a GET request; an absent parameter is `none`. -/
structure QrQuery where
  data : String := ""
  url : String := ""
  size : Option String := none
  format : Option String := none
  errorLevel : Option String := none
deriving DecidableEq, Repr

/-- The `customConfig` object as built from the query string in the handler's
GET branch: each key is written only when the query parameter is truthy. -/
def getCustomConfig (q : QrQuery) : QrPartialConfig :=
  { width :=
      match q.size with
      | some s => if s ≠ "" then some (parseInt10 s) else none
      | none => none
    type :=
      match q.format with
      | some f => if f ≠ "" then some (if f = "svg" then "svg" else "image/png") else none
      | none => none
    errorCorrectionLevel :=
      match q.errorLevel with
      | some e => if e ≠ "" then some (jsToUpper e) else none
      | none => none }

/-- The regular expression `URL_PATTERN` (`^https?:\/\/.+` with the `i`
flag): a case-insensitive `http://` or `https://` scheme followed by at least
one character, where `.` does not match a newline. -/
def urlPatternTest (s : String) : Bool :=
  let cs := s.toList.map Char.toLower
  if cs.take 8 = "https://".toList then
    match cs.drop 8 with
    | [] => false
    | c :: _ => c != '\n'
  else if cs.take 7 = "http://".toList then
    match cs.drop 7 with
    | [] => false
    | c :: _ => c != '\n'
  else false

/-- What the handler does with a request: the observable response, recording
in particular whether the QR encoder (`QRCode.toBuffer` / `QRCode.toString`)
is reached. -/
inductive QrOutcome where
  | preflight
  | methodNotAllowed
  | reject (status : Nat) (error : String) (range : Option String)
  | encode (data : String) (config : QrConfig)
deriving DecidableEq, Repr

/-- Whether the outcome reached the QR encoder. -/
def QrOutcome.isEncode : QrOutcome → Bool
  | .encode _ _ => true
  | _ => false

/-- Whether the outcome is an HTTP 400 rejection. -/
def QrOutcome.isReject400 : QrOutcome → Bool
  | .reject 400 _ _ => true
  | _ => false

/-- The handler body after `qrData` and `customConfig` extraction: input
validation in source order, then the encoder call. -/
def validateAndEncode (qrData : String) (customConfig : QrPartialConfig) : QrOutcome :=
  if qrData = "" then
    .reject 400 "Missing required parameter: data or url" none
  else if jsStartsWith qrData "http" && !urlPatternTest qrData then
    .reject 400 "Invalid URL format" none
  else if qrData.length > 2048 then
    .reject 400 "Data too long" none
  else
    let config := mergeConfig QR_CONFIG customConfig
    if config.width.truthy && (config.width.ltInt 64 || config.width.gtInt 2048) then
      .reject 400 "Invalid size" (some "64-2048 pixels")
    else if config.errorCorrectionLevel != "" &&
        !(["L", "M", "Q", "H"].contains config.errorCorrectionLevel) then
      .reject 400 "Invalid error correction level" none
    else
      .encode qrData config

/-- The HTTP methods the handler distinguishes. -/
inductive QrMethod where
  | get | post | options | other
deriving DecidableEq, Repr

/-- A request to `/api/qr-code`. -/
structure QrRequest where
  method : QrMethod
  query : QrQuery := {}
  bodyData : String := ""
  bodyUrl : String := ""
  bodyConfig : QrPartialConfig := {}
deriving DecidableEq, Repr

/-- The `/api/qr-code` handler. -/
def qrHandler (req : QrRequest) : QrOutcome :=
  match req.method with
  | .options => .preflight
  | .get => validateAndEncode (jsOrStr req.query.data req.query.url) (getCustomConfig req.query)
  | .post => validateAndEncode (jsOrStr req.bodyData req.bodyUrl) req.bodyConfig
  | .other => .methodNotAllowed

/-- The `qrData` content string as the handler extracts it for GET and POST
requests. -/
def extractedContent (req : QrRequest) : String :=
  match req.method with
  | .get => jsOrStr req.query.data req.query.url
  | _ => jsOrStr req.bodyData req.bodyUrl

/-- Content longer than 2048 characters never reaches the encoder: whatever
else holds, `validateAndEncode` answers with some 400 rejection. -/
theorem validateAndEncode_long_rejected (qrData : String) (c : QrPartialConfig)
    (h : qrData.length > 2048) :
    (validateAndEncode qrData c).isReject400 = true ∧
    (validateAndEncode qrData c).isEncode = false := by
  unfold validateAndEncode
  by_cases h1 : qrData = ""
  · rw [h1] at h; simp at h
  · rw [if_neg h1]
    by_cases h2 : (jsStartsWith qrData "http" && !urlPatternTest qrData) = true
    · rw [if_pos h2]; exact ⟨rfl, rfl⟩
    · rw [if_neg h2, if_pos h]; exact ⟨rfl, rfl⟩

/-- C4: every GET or POST request whose content string (`data` or `url`)
exceeds 2048 characters is answered with HTTP 400, and the QR encoder
(`QRCode.toBuffer` / `QRCode.toString`) is never invoked. -/
theorem qr_long_content_rejected (req : QrRequest)
    (hm : req.method = .get ∨ req.method = .post)
    (hlen : (extractedContent req).length > 2048) :
    (qrHandler req).isReject400 = true ∧ (qrHandler req).isEncode = false := by
  rcases hm with h | h
  · simp only [extractedContent, h] at hlen
    simp only [qrHandler, h]
    exact validateAndEncode_long_rejected _ _ hlen
  · simp only [extractedContent, h] at hlen
    simp only [qrHandler, h]
    exact validateAndEncode_long_rejected _ _ hlen

/-- A GET request carrying a 2049-character data string. -/
def longReq : QrRequest :=
  { method := .get, query := { data := String.mk (List.replicate 2049 'a') } }

/-- The 2049-character data string of `longReq` is not empty. -/
theorem longReq_data_ne_empty : String.mk (List.replicate 2049 'a') ≠ "" := by
  intro hEq
  have h0 : List.replicate 2049 'a' = ([] : List Char) := congrArg String.data hEq
  have h1 := congrArg List.length h0
  rw [List.length_replicate] at h1
  simp at h1

/-- Witness for C4 at a concrete 2049-character request. -/
theorem qr_long_content_rejected_witness :
    (longReq.method = .get ∨ longReq.method = .post) ∧
    (extractedContent longReq).length > 2048 ∧
    ((qrHandler longReq).isReject400 = true ∧ (qrHandler longReq).isEncode = false) := by
  have hm : longReq.method = .get ∨ longReq.method = .post := Or.inl rfl
  have he : extractedContent longReq = String.mk (List.replicate 2049 'a') := by
    show jsOrStr (String.mk (List.replicate 2049 'a')) "" = _
    rw [jsOrStr, if_pos longReq_data_ne_empty]
  have hlen : (extractedContent longReq).length > 2048 := by
    rw [he]
    show 2048 < (List.replicate 2049 'a').length
    rw [List.length_replicate]
    omega
  exact ⟨hm, hlen, qr_long_content_rejected longReq hm hlen⟩

/-- A GET request for `/api/qr-code?data=hello&size=0`: its effective size
parameter is `0`, which is below the documented 64-pixel minimum. -/
def sizeZeroReq : QrRequest :=
  { method := .get, query := { data := "hello", size := some "0" } }

/-- C3 counterexample: the claim states that every effective size below 64 is
answered with HTTP 400 and no image is generated, but for effective size `0`
(which is `< 64`) the truthiness guard `config.width && ...` skips the range
check and the handler proceeds to the encoder. -/
theorem qr_size_zero_counterexample :
    (mergeConfig QR_CONFIG (getCustomConfig sizeZeroReq.query)).width = .int 0 ∧
    JSNum.ltInt (.int 0) 64 = true ∧
    (qrHandler sizeZeroReq).isReject400 = false ∧
    (qrHandler sizeZeroReq).isEncode = true := by
  refine ⟨rfl, rfl, ?_, ?_⟩ <;> rfl

/-- C3 amended: for every request that passes the content validations and
whose effective size parameter is a nonzero (truthy) number below 64 or above
2048, the handler responds HTTP 400 with an error naming the valid range
`64-2048 pixels` and the encoder is not invoked; an effective size of `0` is
falsy and skips this check. -/
theorem qr_invalid_size_rejected (qrData : String) (c : QrPartialConfig) (n : Int)
    (hw : (mergeConfig QR_CONFIG c).width = .int n)
    (hnz : n ≠ 0)
    (hrange : n < 64 ∨ n > 2048)
    (hdata : qrData ≠ "")
    (hurl : (jsStartsWith qrData "http" && !urlPatternTest qrData) = false)
    (hlen : qrData.length ≤ 2048) :
    validateAndEncode qrData c = .reject 400 "Invalid size" (some "64-2048 pixels") := by
  unfold validateAndEncode
  rw [if_neg hdata, if_neg (by rw [hurl]; simp), if_neg (by omega : ¬qrData.length > 2048)]
  have hc : ((mergeConfig QR_CONFIG c).width.truthy &&
      ((mergeConfig QR_CONFIG c).width.ltInt 64 ||
        (mergeConfig QR_CONFIG c).width.gtInt 2048)) = true := by
    rw [hw]
    simp only [JSNum.truthy, JSNum.ltInt, JSNum.gtInt, Bool.and_eq_true, bne_iff_ne, ne_eq,
      Bool.or_eq_true, decide_eq_true_eq]
    exact ⟨hnz, by omega⟩
  rw [if_pos hc]

/-- Witness for the amended C3 at the concrete request
`/api/qr-code?data=hello&size=63`. -/
theorem qr_invalid_size_rejected_witness :
    ((mergeConfig QR_CONFIG { width := some (JSNum.int 63) }).width = .int 63 ∧
      (63 : Int) ≠ 0 ∧ ((63 : Int) < 64 ∨ (63 : Int) > 2048) ∧
      "hello" ≠ "" ∧
      (jsStartsWith "hello" "http" && !urlPatternTest "hello") = false ∧
      "hello".length ≤ 2048) ∧
    validateAndEncode "hello" { width := some (JSNum.int 63) } =
      QrOutcome.reject 400 "Invalid size" (some "64-2048 pixels") :=
  ⟨⟨rfl, by decide, Or.inl (by decide), by decide, by decide, by decide⟩,
    qr_invalid_size_rejected "hello" _ 63 rfl (by decide) (Or.inl (by decide))
      (by decide) (by decide) (by decide)⟩

/-- C10: a GET request whose `size` query parameter does not parse to a number
(`parseInt` yields `NaN`) never takes the 400 invalid-size branch — `NaN` is
falsy and both range comparisons against `NaN` are `false` — so, provided the
content validations pass, generation proceeds with a `NaN` width. -/
theorem qr_nan_size_not_rejected (q : QrQuery) (s : String)
    (hsize : q.size = some s) (hs : s ≠ "") (hnan : parseInt10 s = .nan)
    (hdata : jsOrStr q.data q.url ≠ "")
    (hurl : (jsStartsWith (jsOrStr q.data q.url) "http" &&
      !urlPatternTest (jsOrStr q.data q.url)) = false)
    (hlen : (jsOrStr q.data q.url).length ≤ 2048)
    (hecl : (["L", "M", "Q", "H"].contains
      (mergeConfig QR_CONFIG (getCustomConfig q)).errorCorrectionLevel) = true) :
    qrHandler { method := .get, query := q } =
      .encode (jsOrStr q.data q.url) (mergeConfig QR_CONFIG (getCustomConfig q)) ∧
    (mergeConfig QR_CONFIG (getCustomConfig q)).width = .nan ∧
    JSNum.truthy .nan = false ∧
    JSNum.ltInt .nan 64 = false ∧ JSNum.gtInt .nan 2048 = false := by
  have hwidth : (mergeConfig QR_CONFIG (getCustomConfig q)).width = .nan := by
    simp only [mergeConfig, getCustomConfig, hsize, if_pos hs, hnan, Option.getD_some]
  refine ⟨?_, hwidth, rfl, rfl, rfl⟩
  show validateAndEncode (jsOrStr q.data q.url) (getCustomConfig q) = _
  unfold validateAndEncode
  rw [if_neg hdata, if_neg (by rw [hurl]; simp), if_neg (by omega : ¬(jsOrStr q.data q.url).length > 2048)]
  rw [if_neg (by rw [hwidth]; simp [JSNum.truthy]), if_neg (by rw [hecl]; simp)]

/-- Witness for C10 at the concrete request `/api/qr-code?data=hello&size=abc`. -/
theorem qr_nan_size_not_rejected_witness :
    (parseInt10 "abc" = .nan ∧ ("abc" : String) ≠ "") ∧
    qrHandler { method := .get, query := { data := "hello", size := some "abc" } } =
      .encode "hello" (mergeConfig QR_CONFIG
        (getCustomConfig { data := "hello", size := some "abc" })) ∧
    (mergeConfig QR_CONFIG (getCustomConfig { data := "hello", size := some "abc" })).width = .nan :=
  ⟨⟨by decide, by decide⟩,
    (qr_nan_size_not_rejected { data := "hello", size := some "abc" } "abc" rfl (by decide)
      (by decide) (by decide) (by decide) (by decide) (by decide)).1,
    (qr_nan_size_not_rejected { data := "hello", size := some "abc" } "abc" rfl (by decide)
      (by decide) (by decide) (by decide) (by decide) (by decide)).2.1⟩

/-! ## The error handler (src/lib/errorHandler.js) -/

/-- JS `s.includes(pat)`: whether `pat` occurs as a substring of `s`. -/
def strIncludes (s pat : String) : Bool :=
  (List.range (s.toList.length + 1)).any fun i =>
    (s.toList.drop i).take pat.toList.length == pat.toList

/-- JS `s.toLowerCase()` (ASCII, which is all the keyword lists use). -/
def jsToLower (s : String) : String := String.mk (s.toList.map Char.toLower)

/-- The `ErrorTypes` taxonomy. -/
inductive ErrType where
  | CAMERA_ERROR | AR_ERROR | QR_ERROR | NETWORK_ERROR
  | PERMISSION_ERROR | BROWSER_ERROR | VALIDATION_ERROR
deriving DecidableEq, Repr

/-- The `ErrorSeverity` levels. -/
inductive ErrSeverity where
  | LOW | MEDIUM | HIGH | CRITICAL
deriving DecidableEq, Repr

/-- `ErrorHandler.categorizeError`: keyword matching on the lowercased error
message, falling through to `VALIDATION_ERROR`. -/
def categorizeError (message : String) : ErrType :=
  let m := jsToLower message
  if strIncludes m "camera" || strIncludes m "media" || strIncludes m "video" then
    .CAMERA_ERROR
  else if strIncludes m "ar" || strIncludes m "marker" || strIncludes m "tracking" then
    .AR_ERROR
  else if strIncludes m "qr" || strIncludes m "code" then
    .QR_ERROR
  else if strIncludes m "permission" || strIncludes m "denied" then
    .PERMISSION_ERROR
  else if strIncludes m "network" || strIncludes m "fetch" || strIncludes m "connection" then
    .NETWORK_ERROR
  else if strIncludes m "browser" || strIncludes m "unsupported" then
    .BROWSER_ERROR
  else
    .VALIDATION_ERROR

/-- `ErrorHandler.determineSeverity`: keyword matching on the lowercased error
message, falling through to `LOW`. -/
def determineSeverity (message : String) : ErrSeverity :=
  let m := jsToLower message
  if strIncludes m "critical" || strIncludes m "fatal" then
    .CRITICAL
  else if strIncludes m "permission" || strIncludes m "camera" || strIncludes m "ar" then
    .HIGH
  else if strIncludes m "network" || strIncludes m "connection" then
    .MEDIUM
  else
    .LOW

/-- The explicit taxonomy carried by an `ARError` instance. -/
structure ARErrorVal where
  message : String
  type : ErrType
  severity : ErrSeverity
deriving DecidableEq, Repr

/-- An error reaching `ErrorHandler.handleError`: either a plain JS `Error`
or an `ARError` with an explicit taxonomy. -/
inductive ErrInput where
  | plain (message : String)
  | arErr (e : ARErrorVal)
deriving DecidableEq, Repr

/-- A processed error record (the fields the claims are about). -/
structure ProcessedError where
  message : String
  type : ErrType
  severity : ErrSeverity
deriving DecidableEq, Repr

/-- `ErrorHandler.processError`: an `ARError` keeps its explicit type and
severity; a plain error is categorized by the keyword heuristics. -/
def processError : ErrInput → ProcessedError
  | .plain m => { message := m, type := categorizeError m, severity := determineSeverity m }
  | .arErr e => { message := e.message, type := e.type, severity := e.severity }

/-- `ErrorHandler.logError`: append the processed error and drop the oldest
entry once the log exceeds `maxLogSize = 100`. -/
def logError (log : List ProcessedError) (e : ProcessedError) : List ProcessedError :=
  let log2 := log ++ [e]
  if log2.length > 100 then log2.drop 1 else log2

/-- `ErrorHandler.handleError`: process, log, and return the processed error. -/
def handleError (log : List ProcessedError) (e : ErrInput) :
    List ProcessedError × ProcessedError :=
  let pe := processError e
  (logError log pe, pe)

/-- `handlePermissionError`: wrap into an `ARError` tagged
`PERMISSION_ERROR` / `CRITICAL` and hand it to the error handler. -/
def handlePermissionError (log : List ProcessedError) (message : String) :
    List ProcessedError × ProcessedError :=
  handleError log (.arErr { message := message, type := .PERMISSION_ERROR, severity := .CRITICAL })

/-- `handleCameraError`: wrap into an `ARError` tagged
`CAMERA_ERROR` / `HIGH` and hand it to the error handler. -/
def handleCameraError (log : List ProcessedError) (message : String) :
    List ProcessedError × ProcessedError :=
  handleError log (.arErr { message := message, type := .CAMERA_ERROR, severity := .HIGH })

/-- The message keywords of `categorizeError`. -/
def categorizationKeywords : List String :=
  ["camera", "media", "video", "ar", "marker", "tracking", "qr", "code",
   "permission", "denied", "network", "fetch", "connection", "browser", "unsupported"]

/-- The message keywords of `determineSeverity`. -/
def severityKeywords : List String :=
  ["critical", "fatal", "permission", "camera", "ar", "network", "connection"]

/-- C8: a plain error whose lowercased message contains none of the
categorization keywords and none of the severity keywords is processed as
`VALIDATION_ERROR` with severity `LOW`. -/
theorem default_categorization (m : String)
    (hcat : ∀ kw ∈ categorizationKeywords, strIncludes (jsToLower m) kw = false)
    (hsev : ∀ kw ∈ severityKeywords, strIncludes (jsToLower m) kw = false) :
    (processError (.plain m)).type = .VALIDATION_ERROR ∧
    (processError (.plain m)).severity = .LOW := by
  have c1 := hcat "camera" (by simp [categorizationKeywords])
  have c2 := hcat "media" (by simp [categorizationKeywords])
  have c3 := hcat "video" (by simp [categorizationKeywords])
  have c4 := hcat "ar" (by simp [categorizationKeywords])
  have c5 := hcat "marker" (by simp [categorizationKeywords])
  have c6 := hcat "tracking" (by simp [categorizationKeywords])
  have c7 := hcat "qr" (by simp [categorizationKeywords])
  have c8 := hcat "code" (by simp [categorizationKeywords])
  have c9 := hcat "permission" (by simp [categorizationKeywords])
  have c10 := hcat "denied" (by simp [categorizationKeywords])
  have c11 := hcat "network" (by simp [categorizationKeywords])
  have c12 := hcat "fetch" (by simp [categorizationKeywords])
  have c13 := hcat "connection" (by simp [categorizationKeywords])
  have c14 := hcat "browser" (by simp [categorizationKeywords])
  have c15 := hcat "unsupported" (by simp [categorizationKeywords])
  have s1 := hsev "critical" (by simp [severityKeywords])
  have s2 := hsev "fatal" (by simp [severityKeywords])
  constructor
  · simp [processError, categorizeError, c1, c2, c3, c4, c5, c6, c7, c8, c9, c10,
      c11, c12, c13, c14, c15]
  · simp [processError, determineSeverity, s1, s2, c1, c4, c11, c13, c9]

/-- Witness for C8: the message `"bug"` contains no keyword from either list. -/
theorem default_categorization_witness :
    ((∀ kw ∈ categorizationKeywords, strIncludes (jsToLower "bug") kw = false) ∧
      (∀ kw ∈ severityKeywords, strIncludes (jsToLower "bug") kw = false)) ∧
    (processError (.plain "bug")).type = .VALIDATION_ERROR ∧
    (processError (.plain "bug")).severity = .LOW :=
  ⟨⟨by decide, by decide⟩, default_categorization "bug" (by decide) (by decide)⟩

/-! ## Camera utilities (CameraUtils, src lib/cameraUtils) -/

/-- The `StreamStates` of `CameraUtils`. -/
inductive StreamState where
  | INACTIVE | REQUESTING | ACTIVE | ERROR
deriving DecidableEq, Repr

/-- The mutable state of the `CameraUtils` singleton that
`requestCameraAccess` touches, together with the error handler's log. -/
structure CameraState where
  currentStream : Option Nat
  streamState : StreamState
  errorLog : List ProcessedError
deriving DecidableEq, Repr

/-- The browser's answer to `getUserMedia`: a stream, or a rejection with a
DOM exception `name` and `message`. -/
inductive GUMResult where
  | ok (stream : Nat)
  | err (name : String) (message : String)
deriving DecidableEq, Repr

/-- What `requestCameraAccess` gives its caller: the stream, or a thrown
`Error` with the given message. -/
inductive CamOutcome where
  | stream (s : Nat)
  | thrown (message : String)
deriving DecidableEq, Repr

/-- `CameraUtils.requestCameraAccess`, with the browser's `getUserMedia`
response supplied as an explicit input.  On success the old stream is stopped
and the new one stored with state `ACTIVE`; on failure the state becomes
`ERROR`, the error is translated by DOM-exception name into the taxonomy and
logged, and a user-facing `Error` is thrown. -/
def requestCameraAccess (st : CameraState) (gum : GUMResult) :
    CameraState × CamOutcome :=
  let st0 : CameraState := { st with streamState := .REQUESTING }
  match gum with
  | .ok s =>
      ({ st0 with currentStream := some s, streamState := .ACTIVE }, .stream s)
  | .err name msg =>
      let st1 : CameraState := { st0 with streamState := .ERROR }
      if name == "NotAllowedError" || name == "PermissionDeniedError" then
        ({ st1 with errorLog := (handlePermissionError st1.errorLog msg).1 },
          .thrown "Camera permission denied. Please allow camera access to use AR features.")
      else if name == "NotFoundError" || name == "DevicesNotFoundError" then
        ({ st1 with errorLog := (handleCameraError st1.errorLog msg).1 },
          .thrown "No camera found on this device.")
      else if name == "NotReadableError" || name == "TrackStartError" then
        ({ st1 with errorLog := (handleCameraError st1.errorLog msg).1 },
          .thrown "Camera is already in use by another application.")
      else if name == "OverconstrainedError" || name == "ConstraintNotSatisfiedError" then
        ({ st1 with errorLog := (handleCameraError st1.errorLog msg).1 },
          .thrown "Camera does not support the requested configuration.")
      else
        ({ st1 with errorLog := (handleCameraError st1.errorLog msg).1 },
          .thrown ("Camera access failed: " ++ msg))

/-- `logError` always leaves the freshly processed error as the most recent
log entry. -/
theorem logError_getLast (log : List ProcessedError) (e : ProcessedError) :
    (logError log e).getLast? = some e := by
  show ((if (log ++ [e]).length > 100 then List.drop 1 (log ++ [e])
    else log ++ [e]).getLast? = some e)
  by_cases h : (log ++ [e]).length > 100
  · rw [if_pos h]
    rcases log with _ | ⟨a, rest⟩
    · simp at h
    · rw [List.cons_append, List.drop_one, List.tail_cons]
      exact List.getLast?_concat rest
  · rw [if_neg h]
    exact List.getLast?_concat log

/-- C5: when `getUserMedia` rejects with `NotAllowedError`,
`requestCameraAccess` throws, the logged record carries the `permission`
taxonomy (`PERMISSION_ERROR`) with `CRITICAL` severity, and no stream is left
active: the stream state is `ERROR` (not `ACTIVE`) and `currentStream` is
unchanged — no new stream was stored. -/
theorem camera_permission_denied (st : CameraState) (msg : String) :
    ((requestCameraAccess st (.err "NotAllowedError" msg)).2 =
      .thrown "Camera permission denied. Please allow camera access to use AR features.") ∧
    (requestCameraAccess st (.err "NotAllowedError" msg)).1.streamState = .ERROR ∧
    (requestCameraAccess st (.err "NotAllowedError" msg)).1.streamState ≠ .ACTIVE ∧
    (requestCameraAccess st (.err "NotAllowedError" msg)).1.currentStream = st.currentStream ∧
    (requestCameraAccess st (.err "NotAllowedError" msg)).1.errorLog.getLast? =
      some { message := msg, type := .PERMISSION_ERROR, severity := .CRITICAL } := by
  have h2 : (requestCameraAccess st (.err "NotAllowedError" msg)).1.streamState = .ERROR := rfl
  refine ⟨rfl, h2, ?_, rfl, ?_⟩
  · rw [h2]
    decide
  · show (handlePermissionError st.errorLog msg).1.getLast? = _
    exact logError_getLast st.errorLog _

/-! ## Session tracking (SessionManager and the /api/session route) -/

/-- The `SessionStates` of the session manager. -/
inductive SessState where
  | inactive | active | ar_active | completed | error
deriving DecidableEq, Repr

/-- A tracked interaction record (the fields the claims are about). -/
structure SInteraction where
  id : String
  type : String
  timestamp : Nat
deriving DecidableEq, Repr

/-- JS `arr.slice(-n)`: the `n` most recent elements of an array. -/
def sliceLast {α : Type} (l : List α) (n : Nat) : List α :=
  l.drop (l.length - n)

/-- The JSON blob `saveSessionData` writes under
`localStorage['halloween_ar_session']`. -/
structure StoredSession where
  interactions : List SInteraction
  sessionState : SessState
  lastSaved : Nat
deriving DecidableEq, Repr

/-- The mutable state of the `SessionManager` singleton, together with the
armed inactivity timer and the local-storage cell it writes. -/
structure SMState where
  sessionState : SessState
  interactions : List SInteraction
  lastActivityTime : Nat
  timeoutArmed : Bool
  timerDeadline : Nat
  storage : Option StoredSession
  hasErrors : Bool
deriving DecidableEq, Repr

/-- `this.sessionTimeout`: 30 minutes of inactivity, in milliseconds. -/
def sessionTimeoutMs : Nat := 30 * 60 * 1000

/-- The snapshot written by `SessionManager.saveSessionData`: the session
data, the last 50 interactions, and the session state. -/
def mkSnapshot (st : SMState) (now : Nat) : StoredSession :=
  { interactions := sliceLast st.interactions 50
    sessionState := st.sessionState
    lastSaved := now }

/-- `SessionManager.saveSessionData`. -/
def saveSessionData (st : SMState) (now : Nat) : SMState :=
  { st with storage := some (mkSnapshot st now) }

/-- `SessionManager.resetSessionTimeout`: re-arm the 30-minute inactivity
timer. -/
def resetSessionTimeout (st : SMState) (now : Nat) : SMState :=
  { st with timeoutArmed := true, timerDeadline := now + sessionTimeoutMs }

/-- `SessionManager.handleSpecialInteractions`: interaction types that mutate
the session state. -/
def handleSpecialInteractions (st : SMState) (itype : String) : SMState :=
  if itype = "ar_start" then { st with sessionState := .ar_active }
  else if itype = "ar_end" then
    if st.sessionState = .ar_active then { st with sessionState := .active } else st
  else if itype = "error_occurred" then { st with hasErrors := true }
  else st

/-- `SessionManager.trackInteraction`: a no-op on an inactive session,
otherwise append the record, bump activity, re-arm the timer, persist, then
handle state-changing types. -/
def trackInteraction (st : SMState) (now : Nat) (i : SInteraction) : SMState :=
  if st.sessionState = .inactive then st
  else
    let st1 : SMState := { st with interactions := st.interactions ++ [i], lastActivityTime := now }
    let st2 := resetSessionTimeout st1 now
    let st3 := saveSessionData st2 now
    handleSpecialInteractions st3 i.type

/-- `SessionManager.endSession`: a no-op on an inactive session, otherwise
mark the session completed, clear the timer, and persist a final snapshot. -/
def endSession (st : SMState) (now : Nat) : SMState :=
  if st.sessionState = .inactive then st
  else
    let st1 : SMState := { st with sessionState := .completed, timeoutArmed := false }
    saveSessionData st1 now

/-- `SessionManager.clearSessionData`: reset the in-memory data and remove
the local-storage entry. -/
def clearSessionData (st : SMState) : SMState :=
  { st with interactions := [], storage := none }

/-- The armed 30-minute inactivity timeout firing at `now`: `setTimeout`'s
callback is `endSession`. -/
def fireTimeoutIfDue (st : SMState) (now : Nat) : SMState :=
  if st.timeoutArmed ∧ st.timerDeadline ≤ now then endSession st now else st

/-- A sequence of `track()` calls, each with its wall-clock time. -/
def trackList (st : SMState) (l : List (Nat × SInteraction)) : SMState :=
  l.foldl (fun s p => trackInteraction s p.1 p.2) st

/-- `maxInteractionsPerSession` from the session API route's
`SESSION_CONFIG`. -/
def maxInteractionsPerSession : Nat := 100

/-- The list update of the API route's `addInteractionToSession`: push, then
keep only the most recent 100 when over the limit. -/
def addInteractionToSession (store : List SInteraction) (i : SInteraction) :
    List SInteraction :=
  let s := store ++ [i]
  if s.length > maxInteractionsPerSession then sliceLast s maxInteractionsPerSession else s

/-- `sliceLast` keeps at most `n` elements. -/
theorem sliceLast_length_le {α : Type} (l : List α) (n : Nat) :
    (sliceLast l n).length ≤ n := by
  unfold sliceLast
  rw [List.length_drop]
  omega

/-- `sliceLast` keeps a suffix: only the oldest entries are dropped. -/
theorem sliceLast_suffix {α : Type} (l : List α) (n : Nat) :
    sliceLast l n <:+ l :=
  List.drop_suffix _ _

/-- For a list of at most `n` elements, `sliceLast` is the identity. -/
theorem sliceLast_of_le {α : Type} (l : List α) (n : Nat) (h : l.length ≤ n) :
    sliceLast l n = l := by
  unfold sliceLast
  rw [show l.length - n = 0 by omega, List.drop_zero]

/-- Pushing onto the most recent `100` of `is` and re-capping gives the most
recent `100` of `is ++ [i]`. -/
theorem addInteractionToSession_sliceLast (is : List SInteraction) (i : SInteraction) :
    addInteractionToSession (sliceLast is 100) i = sliceLast (is ++ [i]) 100 := by
  by_cases h : is.length ≤ 99
  · rw [sliceLast_of_le is 100 (by omega)]
    unfold addInteractionToSession maxInteractionsPerSession
    rw [if_neg (by rw [List.length_append, List.length_singleton]; omega)]
    rw [sliceLast_of_le _ 100 (by rw [List.length_append, List.length_singleton]; omega)]
  · have hL : 100 ≤ is.length := by omega
    have h100 : (sliceLast is 100).length = 100 := by
      unfold sliceLast
      rw [List.length_drop]
      omega
    unfold addInteractionToSession maxInteractionsPerSession
    rw [if_pos (by rw [List.length_append, List.length_singleton, h100]; omega)]
    show sliceLast (sliceLast is 100 ++ [i]) 100 = sliceLast (is ++ [i]) 100
    unfold sliceLast
    rw [List.length_append, List.length_append, List.length_singleton, List.length_drop]
    rw [List.drop_append_of_le_length (by rw [List.length_drop]; omega)]
    rw [List.drop_append_of_le_length (by omega)]
    rw [List.drop_drop]
    apply congrArg (fun k => List.drop k is ++ [i])
    omega

/-- Folding the API route's bounded push over any interaction sequence stores
exactly the most recent 100 entries. -/
theorem apiStore_eq_sliceLast (is : List SInteraction) :
    is.foldl addInteractionToSession [] = sliceLast is 100 := by
  induction is using List.reverseRecOn with
  | nil => rfl
  | append_singleton rest i ih =>
      rw [List.foldl_append, ih]
      simp only [List.foldl_cons, List.foldl_nil]
      exact addInteractionToSession_sliceLast rest i

/-- On a non-inactive session, one `track()` appends exactly one record and
cannot deactivate the session. -/
theorem trackInteraction_append (st : SMState) (now : Nat) (i : SInteraction)
    (h : st.sessionState ≠ .inactive) :
    (trackInteraction st now i).interactions = st.interactions ++ [i] ∧
    (trackInteraction st now i).sessionState ≠ .inactive := by
  unfold trackInteraction
  rw [if_neg h]
  simp only [handleSpecialInteractions, resetSessionTimeout, saveSessionData, mkSnapshot]
  by_cases h1 : i.type = "ar_start"
  · simp [h1]
  · by_cases h2 : i.type = "ar_end"
    · by_cases h3 : st.sessionState = SessState.ar_active
      · simp [h1, h2, h3]
      · simp [h1, h2, h3, h]
    · by_cases h4 : i.type = "error_occurred"
      · simp [h1, h2, h4, h]
      · simp [h1, h2, h4, h]

/-- On a non-inactive session, a sequence of `track()` calls appends all the
records: the in-memory list (whose length is the statistics counter) is not
capped. -/
theorem trackList_interactions (l : List (Nat × SInteraction)) (st : SMState)
    (h : st.sessionState ≠ .inactive) :
    (trackList st l).interactions = st.interactions ++ l.map Prod.snd := by
  induction l generalizing st with
  | nil => simp [trackList]
  | cons p rest ih =>
      have step := trackInteraction_append st p.1 p.2 h
      show (trackList (trackInteraction st p.1 p.2) rest).interactions = _
      rw [ih _ step.2, step.1]
      simp

/-- C1: interaction records are bounded — the local-storage snapshot written
by `saveSessionData` retains at most the 50 most recent interactions (a
suffix of the in-memory list, older entries dropped); the API route's
per-session store always holds exactly the most recent 100 entries of
everything pushed; and after exactly 100 tracked interactions the stored list
length is capped at 100 while the in-memory list driving the statistics
counter has grown by exactly 100, unaffected by either cap. -/
theorem interactions_bounded :
    (∀ (st : SMState) (now : Nat),
        (mkSnapshot st now).interactions.length ≤ 50 ∧
        (mkSnapshot st now).interactions <:+ st.interactions) ∧
    (∀ is : List SInteraction, is.foldl addInteractionToSession [] = sliceLast is 100) ∧
    (∀ is : List SInteraction, is.length ≤ 100 →
        (is.foldl addInteractionToSession []).length = is.length) ∧
    (∀ (st : SMState) (l : List (Nat × SInteraction)),
        st.sessionState = .active → l.length = 100 →
        (trackList st l).interactions.length = st.interactions.length + 100) := by
  refine ⟨fun st now => ⟨sliceLast_length_le _ _, sliceLast_suffix _ _⟩,
    apiStore_eq_sliceLast, fun is h => ?_, fun st l hact hlen => ?_⟩
  · rw [apiStore_eq_sliceLast, sliceLast_of_le _ _ h]
  · rw [trackList_interactions l st (by rw [hact]; exact fun hc => SessState.noConfusion hc)]
    rw [List.length_append, List.length_map, hlen]

/-- A sample interaction record. -/
def sampleInteraction : SInteraction :=
  { id := "i", type := "page_visit", timestamp := 0 }

/-- A freshly started, active session with no interactions yet. -/
def freshActive : SMState :=
  { sessionState := .active, interactions := [], lastActivityTime := 0
    timeoutArmed := true, timerDeadline := sessionTimeoutMs
    storage := none, hasErrors := false }

/-- Witness for C1: exactly 100 interactions through the API store keep all
100, and 100 `track()` calls leave an in-memory count of 100. -/
theorem interactions_bounded_witness :
    ((List.replicate 100 sampleInteraction).length ≤ 100 ∧
      freshActive.sessionState = .active ∧
      (List.replicate 100 ((0 : Nat), sampleInteraction)).length = 100) ∧
    ((List.replicate 100 sampleInteraction).foldl addInteractionToSession []).length =
      (List.replicate 100 sampleInteraction).length ∧
    (trackList freshActive (List.replicate 100 ((0 : Nat), sampleInteraction))).interactions.length =
      freshActive.interactions.length + 100 ∧
    (mkSnapshot freshActive 0).interactions.length ≤ 50 :=
  ⟨⟨by rw [List.length_replicate], rfl, by rw [List.length_replicate]⟩,
    interactions_bounded.2.2.1 _ (by rw [List.length_replicate]),
    interactions_bounded.2.2.2 freshActive _ rfl (by rw [List.length_replicate]),
    (interactions_bounded.1 freshActive 0).1⟩

/-- C2 counterexample: after exactly the 30-minute inactivity window the
timer fires `endSession` and the session completes, but local storage is not
cleared — `endSession` saves a final snapshot, so the stored entry is still
present. -/
theorem session_expiry_counterexample :
    (fireTimeoutIfDue (trackInteraction freshActive 0 sampleInteraction)
      sessionTimeoutMs).sessionState = SessState.completed ∧
    (fireTimeoutIfDue (trackInteraction freshActive 0 sampleInteraction)
      sessionTimeoutMs).storage.isSome = true := by
  constructor <;> rfl

/-- C2 amended: if no `track()` call occurs for at least 30 minutes, the
armed inactivity timer fires `endSession`, the session state transitions to
`completed` and the timer is cleared; local storage is not cleared but
overwritten with the final snapshot (state `completed`) — it is removed only
by `clearSessionData`, which `endSession` never calls. -/
theorem session_expiry (st : SMState) (now : Nat)
    (hactive : st.sessionState = .active)
    (harmed : st.timeoutArmed = true)
    (hdue : st.timerDeadline ≤ now) :
    (fireTimeoutIfDue st now).sessionState = .completed ∧
    (fireTimeoutIfDue st now).timeoutArmed = false ∧
    (fireTimeoutIfDue st now).storage =
      some { interactions := sliceLast st.interactions 50
             sessionState := .completed, lastSaved := now } ∧
    (clearSessionData (fireTimeoutIfDue st now)).storage = none := by
  unfold fireTimeoutIfDue
  rw [if_pos ⟨harmed, hdue⟩]
  unfold endSession
  rw [if_neg (by rw [hactive]; exact fun hc => SessState.noConfusion hc)]
  unfold saveSessionData mkSnapshot clearSessionData sliceLast
  exact ⟨rfl, rfl, rfl, rfl⟩

/-- Witness for the amended C2: a fresh active session whose timer deadline
has just been reached. -/
theorem session_expiry_witness :
    (freshActive.sessionState = .active ∧ freshActive.timeoutArmed = true ∧
      freshActive.timerDeadline ≤ sessionTimeoutMs) ∧
    (fireTimeoutIfDue freshActive sessionTimeoutMs).sessionState = .completed ∧
    (fireTimeoutIfDue freshActive sessionTimeoutMs).timeoutArmed = false ∧
    (fireTimeoutIfDue freshActive sessionTimeoutMs).storage =
      some { interactions := sliceLast freshActive.interactions 50
             sessionState := .completed, lastSaved := sessionTimeoutMs } ∧
    (clearSessionData (fireTimeoutIfDue freshActive sessionTimeoutMs)).storage = none :=
  ⟨⟨rfl, rfl, Nat.le_refl _⟩,
    session_expiry freshActive sessionTimeoutMs rfl rfl (Nat.le_refl _)⟩

/-! ## The QR generation service cache (QRService, src lib/services) -/

/-- `this.cacheTimeout`: one hour, in milliseconds. -/
def cacheTimeoutMs : Nat := 60 * 60 * 1000

/-- `this.cacheMaxSize`. -/
def cacheMaxSize : Nat := 100

/-- A cached generation result with the time it was cached; the generated
result itself is abstracted as a `Nat` identifier. -/
structure CacheItem where
  data : Nat
  timestamp : Nat
deriving DecidableEq, Repr

/-- The `QRService` state: its cache, a JS `Map` modelled as an
insertion-ordered association list. -/
structure QRServiceState where
  cache : List (String × CacheItem)
deriving DecidableEq, Repr

/-- The state of a freshly constructed `QRService`. -/
def initialQRService : QRServiceState := { cache := [] }

/-- JS `Map.get`. -/
def mapGet (m : List (String × CacheItem)) (k : String) : Option CacheItem :=
  (m.find? (fun p => p.1 == k)).map (fun p => p.2)

/-- JS `Map.delete`. -/
def mapDelete (m : List (String × CacheItem)) (k : String) :
    List (String × CacheItem) :=
  m.filter (fun p => p.1 != k)

/-- JS `Map.set`: update in place when the key exists, otherwise append. -/
def mapSet (m : List (String × CacheItem)) (k : String) (v : CacheItem) :
    List (String × CacheItem) :=
  if m.any (fun p => p.1 == k) then
    m.map (fun p => if p.1 == k then (k, v) else p)
  else m ++ [(k, v)]

/-- JS `ToInt32`: reduce an integer to the signed 32-bit range. -/
def toInt32 (n : Int) : Int := (n + 2 ^ 31) % 2 ^ 32 - 2 ^ 31

/-- Digits `0-9a-z` of `Number.prototype.toString(36)`. -/
def base36Digit (n : Nat) : Char :=
  if n < 10 then Char.ofNat (48 + n) else Char.ofNat (87 + n)

/-- A natural number rendered in base 36, as `Math.abs(hash).toString(36)`
renders it. -/
def natToBase36 (n : Nat) : String :=
  if _h : n < 36 then String.mk [base36Digit n]
  else natToBase36 (n / 36) ++ String.mk [base36Digit (n % 36)]
termination_by n
decreasing_by
  exact Nat.div_lt_self (by omega) (by omega)

/-- `QRService.simpleHash`: the 32-bit string hash
`hash = ((hash << 5) - hash + char) & hash`, rendered in base 36. -/
def simpleHash (s : String) : String :=
  let h := s.toList.foldl (fun hash c => toInt32 (toInt32 (hash * 32) - hash + c.toNat)) 0
  natToBase36 h.natAbs

/-- `QRService.getCacheKey`: hash of the serialized `(content, config)` pair.
The entity's `getGenerationConfig()` (defined in the `models/QRCode.js` file,
which is not part of the sources) is abstracted as an opaque serialized
`config` string; the claim only needs the key to be a function of the pair. -/
def getCacheKey (content config : String) : String :=
  simpleHash ("\x7b\"content\":\"" ++ content ++ "\",\"config\":" ++ config ++ "\x7d")

/-- `QRService.getFromCache`: a lookup that deletes (and misses) entries older
than the 1-hour timeout; a hit does not refresh the timestamp. -/
def getFromCache (st : QRServiceState) (now : Nat) (key : String) :
    QRServiceState × Option Nat :=
  match mapGet st.cache key with
  | none => (st, none)
  | some item =>
      if now - item.timestamp > cacheTimeoutMs then
        ({ cache := mapDelete st.cache key }, none)
      else (st, some item.data)

/-- Stable insertion into a timestamp-sorted list (ascending). -/
def insertByTimestamp (p : String × CacheItem) :
    List (String × CacheItem) → List (String × CacheItem)
  | [] => [p]
  | q :: rest =>
      if p.2.timestamp < q.2.timestamp then p :: q :: rest
      else q :: insertByTimestamp p rest

/-- The cache entries sorted by timestamp, oldest first. -/
def sortByTimestamp (l : List (String × CacheItem)) : List (String × CacheItem) :=
  l.foldr insertByTimestamp []

/-- `QRService.cleanCache`: drop expired entries; if still at capacity, drop
the oldest 20%. -/
def cleanCache (st : QRServiceState) (now : Nat) : QRServiceState :=
  let kept := st.cache.filter (fun p => !(decide (now - p.2.timestamp > cacheTimeoutMs)))
  if kept.length ≥ cacheMaxSize then
    let removed := (sortByTimestamp kept).take (cacheMaxSize * 20 / 100)
    { cache := kept.filter (fun p => !(removed.any (fun q => q.1 == p.1))) }
  else { cache := kept }

/-- `QRService.addToCache`: clean when at capacity, then store the result
with the current time. -/
def addToCache (st : QRServiceState) (now : Nat) (key : String) (data : Nat) :
    QRServiceState :=
  let st1 := if st.cache.length ≥ cacheMaxSize then cleanCache st now else st
  { cache := mapSet st1.cache key { data := data, timestamp := now } }

/-- `QRService.generateForUrl`'s cache pipeline for a validated request:
compute the cache key, consult the cache, and otherwise generate (`fresh`
stands for the API generation result) and cache the result.  The returned
flag records whether the encode/API call happened. -/
def generateForUrl (st : QRServiceState) (now : Nat) (content config : String)
    (fresh : Nat) : QRServiceState × Nat × Bool :=
  let key := getCacheKey content config
  let r := getFromCache st now key
  match r.2 with
  | some cached => (r.1, cached, false)
  | none => (addToCache r.1 now key fresh, fresh, true)

/-- C6: starting from a fresh `QRService`, the first generation for a
`(content, config)` pair encodes; a second call for the same pair within the
1-hour cache timeout returns the first result from the cache without a second
encode call; and a third call made after the 1-hour timeout has elapsed
(counted from when the result was cached) misses the cache and regenerates. -/
theorem qr_cache_hit_then_expire (t0 t1 t2 : Nat) (content config : String)
    (f1 f2 f3 : Nat)
    (hwithin : t1 - t0 ≤ cacheTimeoutMs)
    (hafter : t2 - t0 > cacheTimeoutMs) :
    (generateForUrl initialQRService t0 content config f1).2.2 = true ∧
    (generateForUrl (generateForUrl initialQRService t0 content config f1).1 t1
        content config f2).2 = (f1, false) ∧
    (generateForUrl
      (generateForUrl (generateForUrl initialQRService t0 content config f1).1 t1
        content config f2).1 t2 content config f3).2 = (f3, true) := by
  have e1 : generateForUrl initialQRService t0 content config f1 =
      ({ cache := [(getCacheKey content config, { data := f1, timestamp := t0 })] }, f1, true) := rfl
  have hget1 : mapGet [(getCacheKey content config, { data := f1, timestamp := t0 })]
      (getCacheKey content config) = some { data := f1, timestamp := t0 } := by
    unfold mapGet
    rw [List.find?_cons_of_pos _ (by simp)]
    rfl
  have e2 : generateForUrl (generateForUrl initialQRService t0 content config f1).1 t1
      content config f2 =
      ({ cache := [(getCacheKey content config, { data := f1, timestamp := t0 })] }, f1, false) := by
    rw [e1]
    unfold generateForUrl getFromCache
    dsimp only
    rw [hget1]
    simp only [if_neg (by omega : ¬t1 - t0 > cacheTimeoutMs)]
  have e3 : generateForUrl
      (generateForUrl (generateForUrl initialQRService t0 content config f1).1 t1
        content config f2).1 t2 content config f3 =
      ({ cache := [(getCacheKey content config, { data := f3, timestamp := t2 })] }, f3, true) := by
    rw [e2]
    unfold generateForUrl getFromCache
    dsimp only
    rw [hget1]
    simp only [if_pos hafter]
    unfold addToCache mapDelete cleanCache mapSet
    simp
  exact ⟨by rw [e1], by rw [e2], by rw [e3]⟩

/-- Witness for C6 at concrete times 0, 1000 and 3600001 milliseconds. -/
theorem qr_cache_hit_then_expire_witness :
    ((1000 : Nat) - 0 ≤ cacheTimeoutMs ∧ (3600001 : Nat) - 0 > cacheTimeoutMs) ∧
    (generateForUrl initialQRService 0 "https://example.test/" "cfg" 7).2.2 = true ∧
    (generateForUrl (generateForUrl initialQRService 0 "https://example.test/" "cfg" 7).1 1000
        "https://example.test/" "cfg" 8).2 = (7, false) ∧
    (generateForUrl
      (generateForUrl (generateForUrl initialQRService 0 "https://example.test/" "cfg" 7).1 1000
        "https://example.test/" "cfg" 8).1 3600001 "https://example.test/" "cfg" 9).2 = (9, true) :=
  ⟨⟨by decide, by decide⟩,
    qr_cache_hit_then_expire 0 1000 3600001 "https://example.test/" "cfg" 7 8 9
      (by decide) (by decide)⟩

/-! ## The QRCode entity (models/QRCode.js)

The `QRCode` entity class itself (`lib/models/QRCode.js`) is not among the
sources; only its callers (`QRService`) are.  The entity is therefore
modelled from the specification.
-/

/-- JS `Set.prototype.add` on a set represented as its insertion-ordered,
duplicate-free element list. -/
def setAdd (s : List String) (x : String) : List String :=
  if x ∈ s then s else s ++ [x]

/-- JS `new Set(arr)`: insert the array's elements in order, dropping
duplicates. -/
def setFromArray (arr : List String) : List String :=
  arr.foldl setAdd []

/-- Modelled from the spec: the `QRCode` entity of the absent
`models/QRCode.js` — content, rendering configuration (size, error-correction
level, margin, format, colors), usage counters (scan count, AR activation
count, unique-user set) and timestamps; the unique-user collection is a JS
`Set`, represented by its insertion-ordered element list. -/
structure QRCodeEntity where
  id : String
  content : String
  contentType : String
  size : Nat
  errorCorrectionLevel : String
  margin : Nat
  format : String
  darkColor : String
  lightColor : String
  scanCount : Nat
  arActivationCount : Nat
  uniqueUsers : List String
  createdAt : String
deriving DecidableEq, Repr

/-- Modelled from the spec: the JSON form produced by `QRCode.toJSON()`, in
which the unique-user `Set` has been converted to an array
(`Array.from(set)`). -/
structure QRCodeJSON where
  id : String
  content : String
  contentType : String
  size : Nat
  errorCorrectionLevel : String
  margin : Nat
  format : String
  darkColor : String
  lightColor : String
  scanCount : Nat
  arActivationCount : Nat
  uniqueUsers : List String
  createdAt : String
deriving DecidableEq, Repr

/-- Modelled from the spec: `QRCode.toJSON()` copies the scalar fields and
converts the unique-user set to an array. -/
def QRCodeEntity.toJSON (q : QRCodeEntity) : QRCodeJSON :=
  { id := q.id, content := q.content, contentType := q.contentType
    size := q.size, errorCorrectionLevel := q.errorCorrectionLevel
    margin := q.margin, format := q.format
    darkColor := q.darkColor, lightColor := q.lightColor
    scanCount := q.scanCount, arActivationCount := q.arActivationCount
    uniqueUsers := q.uniqueUsers, createdAt := q.createdAt }

/-- Modelled from the spec: `QRCode.fromJSON()` restores the entity,
rebuilding the unique-user set from the array (`new Set(arr)`). -/
def QRCodeJSON.fromJSON (j : QRCodeJSON) : QRCodeEntity :=
  { id := j.id, content := j.content, contentType := j.contentType
    size := j.size, errorCorrectionLevel := j.errorCorrectionLevel
    margin := j.margin, format := j.format
    darkColor := j.darkColor, lightColor := j.lightColor
    scanCount := j.scanCount, arActivationCount := j.arActivationCount
    uniqueUsers := setFromArray j.uniqueUsers, createdAt := j.createdAt }

/-- Membership in `setAdd`. -/
theorem mem_setAdd (s : List String) (x y : String) :
    y ∈ setAdd s x ↔ y ∈ s ∨ y = x := by
  unfold setAdd
  by_cases h : x ∈ s
  · rw [if_pos h]
    constructor
    · exact Or.inl
    · rintro (hy | hy)
      · exact hy
      · rw [hy]; exact h
  · rw [if_neg h]
    simp

/-- Membership in `setFromArray` is membership in the source array. -/
theorem mem_setFromArray (arr : List String) (y : String) :
    y ∈ setFromArray arr ↔ y ∈ arr := by
  suffices haux : ∀ (l acc : List String) (z : String),
      z ∈ l.foldl setAdd acc ↔ z ∈ acc ∨ z ∈ l by
    unfold setFromArray
    rw [haux]
    simp
  intro l
  induction l with
  | nil => intro acc z; simp
  | cons a rest ih =>
      intro acc z
      rw [List.foldl_cons, ih, mem_setAdd]
      constructor
      · rintro (⟨hz | hz⟩ | hz)
        · exact Or.inl hz
        · exact Or.inr (by rw [hz]; exact List.mem_cons_self a rest)
        · exact Or.inr (List.mem_cons_of_mem a hz)
      · rintro (hz | hz)
        · exact Or.inl (Or.inl hz)
        · rcases List.mem_cons.mp hz with hz | hz
          · exact Or.inl (Or.inr hz)
          · exact Or.inr hz

/-- Rebuilding a set from a duplicate-free array reproduces it exactly. -/
theorem setFromArray_of_nodup (arr : List String) (h : arr.Nodup) :
    setFromArray arr = arr := by
  suffices haux : ∀ (l acc : List String), l.Nodup → (∀ x ∈ l, x ∉ acc) →
      l.foldl setAdd acc = acc ++ l by
    unfold setFromArray
    rw [haux arr [] h (by simp), List.nil_append]
  intro l
  induction l with
  | nil => intro acc _ _; simp
  | cons a rest ih =>
      intro acc hnd hdisj
      rw [List.foldl_cons]
      have ha : a ∉ acc := hdisj a (List.mem_cons_self a rest)
      have hstep : setAdd acc a = acc ++ [a] := by unfold setAdd; rw [if_neg ha]
      rw [hstep, ih (acc ++ [a]) (List.nodup_cons.mp hnd).2 ?_]
      · simp
      · intro x hx
        rw [List.mem_append]
        rintro (hxin | hxin)
        · exact hdisj x (List.mem_cons_of_mem a hx) hxin
        · rw [List.mem_singleton] at hxin
          rw [hxin] at hx
          exact (List.nodup_cons.mp hnd).1 hx

/-- C7: serializing a `QRCode` entity with `toJSON()` and restoring it with
`fromJSON()` reproduces an equivalent object — membership in the unique-user
collection survives the set-to-array-to-set conversion unconditionally, and
for a genuine set (duplicate-free user list) the round trip is the
identity. -/
theorem qrcode_entity_roundtrip :
    (∀ (q : QRCodeEntity) (u : String),
        u ∈ (QRCodeJSON.fromJSON (QRCodeEntity.toJSON q)).uniqueUsers ↔ u ∈ q.uniqueUsers) ∧
    (∀ q : QRCodeEntity, q.uniqueUsers.Nodup →
        QRCodeJSON.fromJSON (QRCodeEntity.toJSON q) = q) := by
  constructor
  · intro q u
    exact mem_setFromArray q.uniqueUsers u
  · intro q h
    unfold QRCodeJSON.fromJSON QRCodeEntity.toJSON
    rw [setFromArray_of_nodup q.uniqueUsers h]

/-- A concrete `QRCode` entity with two distinct unique users. -/
def sampleQRCode : QRCodeEntity :=
  { id := "qr1", content := "https://example.test/", contentType := "url"
    size := 512, errorCorrectionLevel := "H", margin := 2, format := "png"
    darkColor := "#000000", lightColor := "#FFFFFF"
    scanCount := 3, arActivationCount := 1
    uniqueUsers := ["alice", "bob"], createdAt := "2025-10-24T00:00:00Z" }

/-- Witness for C7 at a concrete entity. -/
theorem qrcode_entity_roundtrip_witness :
    sampleQRCode.uniqueUsers.Nodup ∧
    QRCodeJSON.fromJSON (QRCodeEntity.toJSON sampleQRCode) = sampleQRCode ∧
    ("alice" ∈ (QRCodeJSON.fromJSON (QRCodeEntity.toJSON sampleQRCode)).uniqueUsers ↔
      "alice" ∈ sampleQRCode.uniqueUsers) :=
  ⟨by decide, qrcode_entity_roundtrip.2 sampleQRCode (by decide),
    qrcode_entity_roundtrip.1 sampleQRCode "alice"⟩

/-! ## The AR session phase state machine
(src/src/components/ARSessionManager.js with CameraHandler and ARScene) -/

/-- The `phase` values of `ARSessionManager`'s session state. -/
inductive ARPhase where
  | idle | checking | requesting_camera | initializing | ready | active | error
deriving DecidableEq, Repr

/-- The session `statistics` aggregated by `ARSessionManager`. -/
structure ARStatistics where
  markerDetections : Nat
  totalSessionTime : Nat
  errorCount : Nat
deriving DecidableEq, Repr

/-- The observable state of the AR session: `ARSessionManager`'s state plus
whether `CameraHandler`'s stream still has live tracks. -/
structure ARSessionState where
  phase : ARPhase
  errorMsg : Option String
  cameraReady : Bool
  arReady : Bool
  markerDetected : Bool
  statistics : ARStatistics
  streamActive : Bool
deriving DecidableEq, Repr

/-- The initial `useState` value: phase `idle`, nothing ready, zero
statistics, no stream. -/
def initialARState : ARSessionState :=
  { phase := .idle, errorMsg := none, cameraReady := false, arReady := false
    markerDetected := false
    statistics := { markerDetections := 0, totalSessionTime := 0, errorCount := 0 }
    streamActive := false }

/-- `ARSessionManager` renders `CameraHandler` only in the
`requesting_camera`, `initializing` and `active` phases. -/
def cameraHandlerMounted (p : ARPhase) : Bool :=
  p == .requesting_camera || p == .initializing || p == .active

/-- The `useEffect` that promotes `initializing` to `active` once the camera
is ready, setting `arReady`. -/
def arReadyEffect (st : ARSessionState) : ARSessionState :=
  if st.cameraReady && st.phase == .initializing then
    { st with arReady := true, phase := .active }
  else st

/-- React settling after a state change: run the `arReady` effect, then
unmount `CameraHandler` when its render guard fails — its cleanup calls
`stopCamera`, which stops every track of the stream. -/
def settle (st : ARSessionState) : ARSessionState :=
  let st1 := arReadyEffect st
  if !cameraHandlerMounted st1.phase && st1.streamActive then
    { st1 with streamActive := false }
  else st1

/-- `handleSessionError`: phase `error`, store the message, bump the error
count. -/
def handleSessionError (st : ARSessionState) (msg : String) : ARSessionState :=
  { st with
    phase := .error
    errorMsg := some msg
    statistics := { st.statistics with errorCount := st.statistics.errorCount + 1 } }

/-- The externally driven events of one AR session run. -/
inductive AREvent where
  | startSession
  | cameraSuccess
  | arInitSuccess
  | arInitFailure (msg : String)
deriving DecidableEq, Repr

/-- One step of the AR session state machine.  `startSession` (with
capabilities loaded and supported) passes through `checking` and lands in
`requesting_camera`; `cameraSuccess` is `handleCameraReady` (store the
stream, set `cameraReady`, move to `active` or `initializing`);
`arInitSuccess` is MindAR's `start()` resolving, which changes no manager
state; `arInitFailure` is `ARScene`'s `onError` reaching
`handleSessionError`.  Every step settles the render afterwards. -/
def arStep (st : ARSessionState) : AREvent → ARSessionState
  | .startSession =>
      settle { st with phase := .requesting_camera, errorMsg := none }
  | .cameraSuccess =>
      settle { st with
        streamActive := true
        cameraReady := true
        phase := if st.arReady then .active else .initializing }
  | .arInitSuccess => st
  | .arInitFailure msg => settle (handleSessionError st msg)

/-- A run of the AR session state machine from the initial state. -/
def arRun (events : List AREvent) : ARSessionState :=
  events.foldl arStep initialARState

/-- C9: from `idle`, a successful camera acquisition followed by a successful
MindAR initialization reaches phase `active`; a MindAR initialization failure
after successful camera acquisition reaches phase `error` with the camera
stream stopped (CameraHandler unmounts and its cleanup stops the tracks). -/
theorem ar_phase_transitions :
    (arRun [.startSession, .cameraSuccess, .arInitSuccess]).phase = .active ∧
    (arRun [.startSession, .cameraSuccess, .arInitSuccess]).streamActive = true ∧
    (arRun [.startSession, .cameraSuccess,
      .arInitFailure "MindAR initialization failed"]).phase = .error ∧
    (arRun [.startSession, .cameraSuccess,
      .arInitFailure "MindAR initialization failed"]).streamActive = false := by
  refine ⟨rfl, rfl, rfl, rfl⟩
